/-
  Verification of the PacsSync DICOM metadata extraction and retrieval
  orchestration code against its natural-language specification.

  The definitions below are a shallow embedding of the Python sources:
    - src/backend/src/app/services/dicom_meta_data_handler.py
      (class DicomMetadataHandler: tag access, dual-path extraction,
       frame-count derivation, metadata reconciliation)
    - src/backend/src/app/services/service_utils/dicom_meta_data_handler.py
      (tag mutation: update_dicom_tag, bulk_update_tags,
       add_dicom_tag_if_missing)
    - src/backend/src/app/services/implementation/dicom_network_interface_imp.py
      (find_studies query-level selection and response draining,
       find_and_get_study series grouping and ordering)

  Python values appearing in DICOM data elements are modelled by the
  inductive type DicomValue; fallible Python operations (int(), len(),
  indexing) are modelled as Option-valued functions, and `try/except`
  blocks become the corresponding `match` on those options.
-/
import Mathlib

namespace PacsSync

/-- Model of a Python value stored in a DICOM data element: a string, an
integer, a byte string, a multi-value list, or a sequence whose items are
themselves small datasets (association lists from numeric tag to value). -/
inductive DicomValue where
  | str (s : String)
  | int (n : Int)
  | bytes (bs : List Nat)
  | list (vs : List DicomValue)
  | seq (items : List (List (Nat × DicomValue)))

/-- Lowercase hex digit for byte escapes. -/
def hexDigitChar (n : Nat) : Char :=
  if n < 10 then Char.ofNat (48 + n) else Char.ofNat (87 + (n - 10))

/-- Two-digit lowercase hex escape of one byte, as Python prints it inside
a bytes repr: backslash, x, two hex digits. -/
def byteEscape (b : Nat) : String :=
  String.mk ['\\', 'x', hexDigitChar (b / 16), hexDigitChar (b % 16)]

/-- Rendering of one byte inside the Python repr of a bytes object:
printable ASCII other than the quote and the backslash is shown verbatim,
everything else as a hex escape.  (Python additionally abbreviates tab,
newline and return; those never occur in the data this development
evaluates.) -/
def byteReprChar (b : Nat) : String :=
  if 32 ≤ b ∧ b ≤ 126 ∧ b ≠ 39 ∧ b ≠ 92 then String.mk [Char.ofNat b]
  else byteEscape b

/-- Model of the Python str()/repr() rendering of a bytes object:
the letter b, a quote, the escaped bytes, a closing quote. -/
def bytesRepr (bs : List Nat) : String :=
  "b\x27" ++ String.join (bs.map byteReprChar) ++ "\x27"

/-- Model of Python repr on element values: strings are quoted (the
values this development stores contain no characters Python would
escape inside a repr), integers print plainly, byte strings print as
their bytes repr, a list prints its items' reprs bracketed and
comma-separated — recursively, so nested lists print in full, as both
the built-in list and the pydicom MultiValue repr do — and a sequence
prints the way pydicom renders one, by its length. -/
def pyRepr : DicomValue → String
  | .str s => "\x27" ++ s ++ "\x27"
  | .int n => toString n
  | .bytes bs => bytesRepr bs
  | .list vs =>
    "[" ++ String.intercalate ", " (vs.attach.map (fun x => pyRepr x.1)) ++ "]"
  | .seq items => "<Sequence, length " ++ toString items.length ++ ">"
  termination_by v => sizeOf v
  decreasing_by
    have := List.sizeOf_lt_of_mem x.2
    simp only [DicomValue.list.sizeOf_spec]
    omega

/-- Model of Python str(value) on one element value: scalars print their
text, a list (or MultiValue, whose string form is the bracketed
comma-separated reprs of its members) prints its items' reprs, and a
sequence prints as pydicom renders one. -/
def pyScalarStr (v : DicomValue) : String :=
  match v with
  | .str s => s
  | .int n => toString n
  | .bytes bs => bytesRepr bs
  | .list vs => "[" ++ String.intercalate ", " (vs.map pyRepr) ++ "]"
  | .seq items => "<Sequence, length " ++ toString items.length ++ ">"

/-- Model of Python str(value) for the values a DICOM data element
holds (the same function as pyScalarStr; both names are kept because the
join branch of the accessor applies str to each member of a
multi-value). -/
def pyStr (v : DicomValue) : String := pyScalarStr v

/-- Model of Python truthiness for the values above: empty strings, zero,
empty byte strings and empty containers are falsy. -/
def pyTruthy (v : DicomValue) : Bool :=
  match v with
  | .str s => !s.isEmpty
  | .int n => n != 0
  | .bytes bs => !bs.isEmpty
  | .list vs => !vs.isEmpty
  | .seq items => !items.isEmpty

/-- Value of a decimal digit run; none on a non-digit, zero on the empty
run (callers guard emptiness). -/
def decDigitsVal (cs : List Char) : Option Nat :=
  cs.foldl
    (fun acc c =>
      acc.bind (fun n =>
        if '0' ≤ c ∧ c ≤ '9' then some (n * 10 + (c.toNat - 48)) else none))
    (some 0)

/-- Parse of a decimal integer literal: an optional sign followed by at
least one digit, as Python int(str) accepts (surrounding whitespace,
also accepted by Python, never occurs in the data this development
evaluates). -/
def parseIntChars (cs : List Char) : Option Int :=
  match cs with
  | [] => none
  | '-' :: rest =>
    if rest.isEmpty then none else (decDigitsVal rest).map (fun n => -(n : Int))
  | '+' :: rest =>
    if rest.isEmpty then none else (decDigitsVal rest).map (fun n => (n : Int))
  | _ => (decDigitsVal cs).map (fun n => (n : Int))

/-- Model of Python int(value): integers pass through, strings are parsed
as decimal integers, anything else raises (modelled as none). -/
def pyInt (v : DicomValue) : Option Int :=
  match v with
  | .int n => some n
  | .str s => parseIntChars s.data
  | _ => none

/-- Model of Python len(value): defined for byte strings, strings, lists
and sequences; raises (none) on integers. -/
def pyLen (v : DicomValue) : Option Nat :=
  match v with
  | .bytes bs => some bs.length
  | .str s => some s.length
  | .list vs => some vs.length
  | .seq items => some items.length
  | .int _ => none

/-- Error handling mode of Python bytes.decode: drop undecodable bytes
(errors equal to the string ignore) or substitute U+FFFD for each maximal
invalid subpart (errors equal to the string replace). -/
inductive DecodeMode where
  | ignoreErrors
  | replaceErrors
deriving DecidableEq, Repr

/-- Characters contributed by one invalid subpart under each error mode. -/
def decodeErrChars (mode : DecodeMode) : List Char :=
  match mode with
  | .ignoreErrors => []
  | .replaceErrors => ['�']

/-- Whether a byte is a UTF-8 continuation byte (0x80 to 0xBF). -/
def isCont (b : Nat) : Bool := 128 ≤ b ∧ b ≤ 191

/-- Fuel-indexed core of the UTF-8 decoder.  It follows the maximal-subpart
convention CPython implements: a well-formed 1 to 4 byte sequence decodes
to its code point; otherwise the longest valid prefix of a sequence is
consumed as a single error.  The range checks on the second byte exclude
overlong encodings, surrogates and code points beyond U+10FFFF, exactly
the sequences CPython rejects. -/
def utf8DecodeAux (mode : DecodeMode) : Nat → List Nat → List Char
  | 0, _ => []
  | _ + 1, [] => []
  | fuel + 1, b :: rest =>
    if b < 128 then
      Char.ofNat b :: utf8DecodeAux mode fuel rest
    else if 194 ≤ b ∧ b ≤ 223 then
      match rest with
      | b2 :: rest2 =>
        if isCont b2 then
          Char.ofNat ((b - 192) * 64 + (b2 - 128)) :: utf8DecodeAux mode fuel rest2
        else decodeErrChars mode ++ utf8DecodeAux mode fuel rest
      | [] => decodeErrChars mode
    else if 224 ≤ b ∧ b ≤ 239 then
      let lo2 : Nat := if b = 224 then 160 else 128
      let hi2 : Nat := if b = 237 then 159 else 191
      match rest with
      | b2 :: rest2 =>
        if lo2 ≤ b2 ∧ b2 ≤ hi2 then
          match rest2 with
          | b3 :: rest3 =>
            if isCont b3 then
              Char.ofNat ((b - 224) * 4096 + (b2 - 128) * 64 + (b3 - 128)) ::
                utf8DecodeAux mode fuel rest3
            else decodeErrChars mode ++ utf8DecodeAux mode fuel rest2
          | [] => decodeErrChars mode
        else decodeErrChars mode ++ utf8DecodeAux mode fuel rest
      | [] => decodeErrChars mode
    else if 240 ≤ b ∧ b ≤ 244 then
      let lo2 : Nat := if b = 240 then 144 else 128
      let hi2 : Nat := if b = 244 then 143 else 191
      match rest with
      | b2 :: rest2 =>
        if lo2 ≤ b2 ∧ b2 ≤ hi2 then
          match rest2 with
          | b3 :: rest3 =>
            if isCont b3 then
              match rest3 with
              | b4 :: rest4 =>
                if isCont b4 then
                  Char.ofNat ((b - 240) * 262144 + (b2 - 128) * 4096 +
                      (b3 - 128) * 64 + (b4 - 128)) ::
                    utf8DecodeAux mode fuel rest4
                else decodeErrChars mode ++ utf8DecodeAux mode fuel rest3
              | [] => decodeErrChars mode
            else decodeErrChars mode ++ utf8DecodeAux mode fuel rest2
          | [] => decodeErrChars mode
        else decodeErrChars mode ++ utf8DecodeAux mode fuel rest
      | [] => decodeErrChars mode
    else
      decodeErrChars mode ++ utf8DecodeAux mode fuel rest

/-- Model of Python bytes.decode with the utf-8 codec under the given
error mode.  The byte list length bounds the number of decoding steps, so
it serves as fuel. -/
def utf8Decode (mode : DecodeMode) (bs : List Nat) : String :=
  String.mk (utf8DecodeAux mode bs.length bs)

/-- A DICOM data element: numeric tag (group and element packed into one
number, as pydicom Tag does), dictionary keyword, and value. -/
structure DataElement where
  tag : Nat
  keyword : String
  vr : String
  value : DicomValue

/-- A pydicom dataset: its data elements in file order, and the file meta
information as an association list from keyword to value. -/
structure Dataset where
  elems : List DataElement
  fileMeta : List (String × DicomValue)

/-- Value of the element with the given numeric tag, if present. -/
def tagLookup (ds : Dataset) (t : Nat) : Option DicomValue :=
  (ds.elems.find? (fun e => e.tag = t)).map (fun e => e.value)

/-- Value of the element with the given keyword, if present; models both
pydicom attribute access (getattr) and Dataset.get with a keyword. -/
def kwLookup (ds : Dataset) (k : String) : Option DicomValue :=
  (ds.elems.find? (fun e => e.keyword = k)).map (fun e => e.value)

/-- Parse a hexadecimal numeral, case insensitive; none on the empty
string or any non-hex character.  Models Python int(s, 16) on the tag
strings this code base passes around (which carry no sign, prefix or
whitespace). -/
def hexDigitVal (c : Char) : Option Nat :=
  if '0' ≤ c ∧ c ≤ '9' then some (c.toNat - 48)
  else if 'a' ≤ c ∧ c ≤ 'f' then some (c.toNat - 87)
  else if 'A' ≤ c ∧ c ≤ 'F' then some (c.toNat - 55)
  else none

/-- Fold a list of characters as hex digits. -/
def hexParseChars (cs : List Char) : Option Nat :=
  cs.foldl (fun acc c => acc.bind (fun n => (hexDigitVal c).map (fun d => n * 16 + d)))
    (some 0)

/-- Parse a nonempty hex string; none if empty or not all hex digits. -/
def hexParse (s : String) : Option Nat :=
  if s.isEmpty then none else hexParseChars s.data

/-- Conversion of a tag string to a numeric tag, as pydicom Tag(str) does:
the string is read as one hex numeral and must fit a 32-bit tag.  A
malformed string raises, modelled as none. -/
def tagOfString (s : String) : Option Nat :=
  match hexParse s with
  | some n => if n ≤ 0xFFFFFFFF then some n else none
  | none => none

/-- Element lookup by tag string, as self.dicom[tag] with a string key:
the string converts to a numeric tag, then the element is looked up;
either step can fail. -/
def tagStrLookup (ds : Dataset) (s : String) : Option DicomValue :=
  (tagOfString s).bind (tagLookup ds)

/-- Keyword containment test, as the Python expression keyword in dataset
used with dictionary keywords such as NumberOfFrames or PixelData. -/
def kwMem (ds : Dataset) (k : String) : Bool :=
  ds.elems.any (fun e => e.keyword = k)

/-- Model of Python str on one sequence item (a pydicom Dataset), which
renders one line per element.  The embedding keeps that line structure,
rendering each element as its tag number and value repr; the dictionary
columns pydicom adds (element names and VR letters) come from the
library's data dictionary, outside the repository, and no embedded read
path or theorem consumes this rendering. -/
def pySeqItemStr (item : List (Nat × DicomValue)) : String :=
  String.intercalate "\n"
    (item.map (fun p => toString p.fst ++ ": " ++ pyRepr p.snd))

/-- Embedding of DicomMetadataHandler._get_dicom_tag (identical in
src/backend/src/app/services/dicom_meta_data_handler.py:221 and
service_utils/dicom_meta_data_handler.py:511) for the single-string-tag
branch, the only form the repository calls it with.  Looks the tag up;
joins list and multi-value results with the two-character delimiter
semicolon-space — a pydicom Sequence is itself a MultiValue, so a
sequence value also takes the join branch, its items (datasets)
stringified; decodes byte strings as UTF-8 dropping undecodable bytes
(errors equal to ignore); stringifies anything else; and returns the
empty-string default on any lookup failure instead of raising. -/
def getDicomTag (ds : Dataset) (tag : String) : String :=
  match tagStrLookup ds tag with
  | none => ""
  | some v =>
    match v with
    | .list vs => String.intercalate "; " (vs.map pyScalarStr)
    | .seq items => String.intercalate "; " (items.map pySeqItemStr)
    | .bytes bs => utf8Decode .ignoreErrors bs
    | _ => pyStr v

/-- Tag-path extraction result for the patient_info category of
_extract_by_tags; field names are the dictionary keys of the source. -/
structure PatientInfoTags where
  (PatientName PatientID PatientBirthDate PatientSex PatientAge PatientWeight
    IssuerOfPatientID : String)

/-- Tag-path extraction result for the study_info category. -/
structure StudyInfoTags where
  (StudyInstanceUID StudyDate StudyTime StudyDescription StudyID AccessionNumber
    ReferringPhysicianName PerformingPhysicianName InstitutionName
    InstitutionAddress : String)

/-- Tag-path extraction result for the series_info category. -/
structure SeriesInfoTags where
  (SeriesInstanceUID SeriesNumber Modality SeriesDescription AcquisitionDate
    AcquisitionTime AcquisitionNumber AcquisitionProtocolName : String)

/-- Tag-path extraction result for the image_info category. -/
structure ImageInfoTags where
  (SOPInstanceUID SOPClassUID ImageType InstanceCreationDate
    InstanceCreationTime : String)

/-- Tag-path extraction result for the category the source names
transfer_syntax (renamed here with an _info suffix). -/
structure TransferSyntaxTags where
  (TransferSyntaxUID ReferencedTransferSyntaxUI MACCalculationTransferSyntaxUID
    EncryptedContentTransferSyntaxUID : String)

/-- Tag-path extraction result for the geometry category. -/
structure GeometryTags where
  (PixelSpacing Height Width NumberOfFrames SliceThickness
    PhotometricInterpretation PhysicalDeltaX PhysicalDeltaY : String)

/-- Tag-path extraction result for the device_info category. -/
structure DeviceInfoTags where
  (Manufacturer ManufacturerModelName DeviceSerialNumber : String)

/-- Tag-path extraction result for the protocol_info category. -/
structure ProtocolInfoTags where
  (ProtocolName ContrastBolusAgent : String)

/-- Tag-path extraction result for the pixel_data category. -/
structure PixelDataTags where
  (BitsAllocated BitsStored HighBit PixelRepresentation : String)

/-- Result of _extract_by_tags: one sub-record per category of the
tag_mappings dictionary.  Every entry is always present (the source builds
the nested dictionary by comprehension over the full mapping). -/
structure TagExtraction where
  patient_info : PatientInfoTags
  study_info : StudyInfoTags
  series_info : SeriesInfoTags
  image_info : ImageInfoTags
  transfer_syntax_info : TransferSyntaxTags
  geometry : GeometryTags
  device_info : DeviceInfoTags
  protocol_info : ProtocolInfoTags
  pixel_data : PixelDataTags

/-- Embedding of DicomMetadataHandler._extract_by_tags
(dicom_meta_data_handler.py:252): each entry is _get_dicom_tag applied to
the hex tag of the source's tag_mappings dictionary, so a missing or
errored lookup yields the empty string. -/
def extract_by_tags (ds : Dataset) : TagExtraction :=
  { patient_info :=
      { PatientName := getDicomTag ds "00100010"
        PatientID := getDicomTag ds "00100020"
        PatientBirthDate := getDicomTag ds "00100030"
        PatientSex := getDicomTag ds "00100040"
        PatientAge := getDicomTag ds "00101010"
        PatientWeight := getDicomTag ds "00101030"
        IssuerOfPatientID := getDicomTag ds "00100021" }
    study_info :=
      { StudyInstanceUID := getDicomTag ds "0020000D"
        StudyDate := getDicomTag ds "00080020"
        StudyTime := getDicomTag ds "00080030"
        StudyDescription := getDicomTag ds "00081030"
        StudyID := getDicomTag ds "00200010"
        AccessionNumber := getDicomTag ds "00080050"
        ReferringPhysicianName := getDicomTag ds "00080090"
        PerformingPhysicianName := getDicomTag ds "00081050"
        InstitutionName := getDicomTag ds "00080080"
        InstitutionAddress := getDicomTag ds "00080081" }
    series_info :=
      { SeriesInstanceUID := getDicomTag ds "0020000E"
        SeriesNumber := getDicomTag ds "00200011"
        Modality := getDicomTag ds "00080060"
        SeriesDescription := getDicomTag ds "0008103E"
        AcquisitionDate := getDicomTag ds "00080022"
        AcquisitionTime := getDicomTag ds "00080032"
        AcquisitionNumber := getDicomTag ds "00200012"
        AcquisitionProtocolName := getDicomTag ds "00181030" }
    image_info :=
      { SOPInstanceUID := getDicomTag ds "00080018"
        SOPClassUID := getDicomTag ds "00080016"
        ImageType := getDicomTag ds "00080008"
        InstanceCreationDate := getDicomTag ds "00080012"
        InstanceCreationTime := getDicomTag ds "00080013" }
    transfer_syntax_info :=
      { TransferSyntaxUID := getDicomTag ds "00020010"
        ReferencedTransferSyntaxUI := getDicomTag ds "00041512"
        MACCalculationTransferSyntaxUID := getDicomTag ds "04000010"
        EncryptedContentTransferSyntaxUID := getDicomTag ds "04000500" }
    geometry :=
      { PixelSpacing := getDicomTag ds "00280030"
        Height := getDicomTag ds "00280010"
        Width := getDicomTag ds "00280011"
        NumberOfFrames := getDicomTag ds "00280008"
        SliceThickness := getDicomTag ds "00180050"
        PhotometricInterpretation := getDicomTag ds "00280004"
        PhysicalDeltaX := getDicomTag ds "0018602c"
        PhysicalDeltaY := getDicomTag ds "0018602e" }
    device_info :=
      { Manufacturer := getDicomTag ds "00080070"
        ManufacturerModelName := getDicomTag ds "00080080"
        DeviceSerialNumber := getDicomTag ds "00181000" }
    protocol_info :=
      { ProtocolName := getDicomTag ds "00181030"
        ContrastBolusAgent := getDicomTag ds "00180010" }
    pixel_data :=
      { BitsAllocated := getDicomTag ds "00280100"
        BitsStored := getDicomTag ds "00280101"
        HighBit := getDicomTag ds "00280102"
        PixelRepresentation := getDicomTag ds "00280103" } }

/-- One attribute-path entry of _extract_by_attributes: the source reads
getattr(self.dicom, attr, the empty string) and stores str(value) when the
value is truthy, the empty string otherwise; any error is also mapped to
the empty string. -/
def attrValue (ds : Dataset) (kw : String) : String :=
  match kwLookup ds kw with
  | none => ""
  | some v => if pyTruthy v then pyStr v else ""

/-- Attribute-path extraction result for the patient_info category
(no IssuerOfPatientID on this path). -/
structure PatientInfoAttrs where
  (PatientName PatientID PatientBirthDate PatientSex PatientAge
    PatientWeight : String)

/-- Attribute-path extraction result for the study_info category. -/
structure StudyInfoAttrs where
  (StudyInstanceUID StudyDate StudyTime StudyDescription StudyID : String)

/-- Attribute-path extraction result for the series_info category. -/
structure SeriesInfoAttrs where
  (SeriesInstanceUID SeriesNumber Modality SeriesDescription : String)

/-- Attribute-path extraction result for the instance_info category. -/
structure InstanceInfoAttrs where
  (SOPInstanceUID SOPClassUID ImageType InstanceCreationDate
    InstanceCreationTime : String)

/-- Attribute-path extraction result for the geometry category. -/
structure GeometryAttrs where
  (PixelSpacing Height Width NumberOfFrames SliceThickness
    PhotometricInterpretation PhysicalDeltaX PhysicalDeltaY : String)

/-- Attribute-path extraction result for the device_info category. -/
structure DeviceInfoAttrs where
  (Manufacturer ManufacturerModelName DeviceSerialNumber : String)

/-- Attribute-path extraction result for the pixel_data category. -/
structure PixelDataAttrs where
  (BitsAllocated BitsStored HighBit PixelRepresentation : String)

/-- Result of _extract_by_attributes, mirroring the attribute_mappings
dictionary of the source. -/
structure AttrExtraction where
  patient_info : PatientInfoAttrs
  study_info : StudyInfoAttrs
  series_info : SeriesInfoAttrs
  instance_info : InstanceInfoAttrs
  geometry : GeometryAttrs
  device_info : DeviceInfoAttrs
  pixel_data : PixelDataAttrs

/-- Embedding of DicomMetadataHandler._extract_by_attributes
(dicom_meta_data_handler.py:340). -/
def extract_by_attributes (ds : Dataset) : AttrExtraction :=
  { patient_info :=
      { PatientName := attrValue ds "PatientName"
        PatientID := attrValue ds "PatientID"
        PatientBirthDate := attrValue ds "PatientBirthDate"
        PatientSex := attrValue ds "PatientSex"
        PatientAge := attrValue ds "PatientAge"
        PatientWeight := attrValue ds "PatientWeight" }
    study_info :=
      { StudyInstanceUID := attrValue ds "StudyInstanceUID"
        StudyDate := attrValue ds "StudyDate"
        StudyTime := attrValue ds "StudyTime"
        StudyDescription := attrValue ds "StudyDescription"
        StudyID := attrValue ds "StudyID" }
    series_info :=
      { SeriesInstanceUID := attrValue ds "SeriesInstanceUID"
        SeriesNumber := attrValue ds "SeriesNumber"
        Modality := attrValue ds "Modality"
        SeriesDescription := attrValue ds "SeriesDescription" }
    instance_info :=
      { SOPInstanceUID := attrValue ds "SOPInstanceUID"
        SOPClassUID := attrValue ds "SOPClassUID"
        ImageType := attrValue ds "ImageType"
        InstanceCreationDate := attrValue ds "InstanceCreationDate"
        InstanceCreationTime := attrValue ds "InstanceCreationTime" }
    geometry :=
      { PixelSpacing := attrValue ds "PixelSpacing"
        Height := attrValue ds "Height"
        Width := attrValue ds "Width"
        NumberOfFrames := attrValue ds "NumberOfFrames"
        SliceThickness := attrValue ds "SliceThickness"
        PhotometricInterpretation := attrValue ds "PhotometricInterpretation"
        PhysicalDeltaX := attrValue ds "PhysicalDeltaX"
        PhysicalDeltaY := attrValue ds "PhysicalDeltaY" }
    device_info :=
      { Manufacturer := attrValue ds "Manufacturer"
        ManufacturerModelName := attrValue ds "ManufacturerModelName"
        DeviceSerialNumber := attrValue ds "DeviceSerialNumber" }
    pixel_data :=
      { BitsAllocated := attrValue ds "BitsAllocated"
        BitsStored := attrValue ds "BitsStored"
        HighBit := attrValue ds "HighBit"
        PixelRepresentation := attrValue ds "PixelRepresentation" } }

/-- One file-meta entry: getattr(self.dicom.file_meta, attr, empty) with
the same truthiness conversion as the attribute path. -/
def fileMetaValue (ds : Dataset) (kw : String) : String :=
  match (ds.fileMeta.find? (fun p => p.fst = kw)).map (fun p => p.snd) with
  | none => ""
  | some v => if pyTruthy v then pyStr v else ""

/-- Result of _extract_file_meta. -/
structure FileMetaInfo where
  (MediaStorageSOPClassUID MediaStorageSOPInstanceUID TransferSyntaxUID
    ImplementationClassUID : String)

/-- Embedding of DicomMetadataHandler._extract_file_meta
(dicom_meta_data_handler.py:388). -/
def extract_file_meta (ds : Dataset) : FileMetaInfo :=
  { MediaStorageSOPClassUID := fileMetaValue ds "MediaStorageSOPClassUID"
    MediaStorageSOPInstanceUID := fileMetaValue ds "MediaStorageSOPInstanceUID"
    TransferSyntaxUID := fileMetaValue ds "TransferSyntaxUID"
    ImplementationClassUID := fileMetaValue ds "ImplementationClassUID" }

/-- Embedding of extract_frames_by_pixelData_length
(dicom_meta_data_handler.py:410).  The Python membership tests
(NumberOfFrames in self.dicom, PixelData in self.dicom) are folded into
the keyword lookups, which succeed exactly when the test does.  int() and
len() failures, and the division by zero that occurs when BitsAllocated
is below 8 (integer division makes bytes-per-pixel zero), are caught by
the blanket except and become none. -/
def extract_frames_by_pixelData_length (ds : Dataset) : Option Int :=
  match kwLookup ds "NumberOfFrames" with
  | some v => pyInt v
  | none =>
    match kwLookup ds "PixelData" with
    | some pv =>
      match pyInt ((kwLookup ds "Rows").getD (.int 0)),
            pyInt ((kwLookup ds "Columns").getD (.int 0)),
            pyInt ((kwLookup ds "BitsAllocated").getD (.int 16)) with
      | some rows, some columns, some bits_allocated =>
        if 0 < rows ∧ 0 < columns ∧ 0 < bits_allocated then
          let bytes_per_pixel := Int.fdiv bits_allocated 8
          let frame_size := rows * columns * bytes_per_pixel
          match pyLen pv with
          | some total_pixel_data_length =>
            if frame_size = 0 then none
            else
              let num_frames := Int.fdiv (total_pixel_data_length : Int) frame_size
              some (if 0 < num_frames then num_frames else 1)
          | none => none
        else some 1
      | _, _, _ => none
    | none => some 1

/-- Lookup of a sub-element inside a sequence item, modelling the chained
Python indexing dataset[seqTag][idx][subTag].value (pydicom forwards
DataElement indexing to its value). -/
def seqItemTag (ds : Dataset) (seqTag : String) (idx : Nat) (subTag : String) :
    Option DicomValue :=
  match tagStrLookup ds seqTag with
  | some (.seq items) =>
    match items.get? idx with
    | some item =>
      match tagOfString subTag with
      | some t => (item.find? (fun p => p.fst = t)).map (fun p => p.snd)
      | none => none
    | none => none
  | _ => none

/-- Decimal digits of a character list; none on a non-digit. -/
def digitsVal (cs : List Char) : Option Nat :=
  cs.foldl (fun acc c =>
      acc.bind (fun n => if c.isDigit then some (n * 10 + (c.toNat - 48)) else none))
    (some 0)

/-- Model of Python float(s) on the plain decimal literals DICOM decimal
strings carry: optional sign, integer part, optional fraction. -/
def parseDecimal (s : String) : Option Rat :=
  let sign : Rat := if s.startsWith "-" then -1 else 1
  let body := if s.startsWith "-" then s.drop 1 else s
  match body.splitOn "." with
  | [ip] =>
    if ip.isEmpty then none else (digitsVal ip.data).map (fun n => sign * (n : Rat))
  | [ip, fp] =>
    if ip.isEmpty ∧ fp.isEmpty then none
    else
      match digitsVal ip.data, digitsVal fp.data with
      | some i, some f =>
        some (sign * ((i : Rat) + (f : Rat) / ((10 : Rat) ^ fp.length)))
      | _, _ => none
  | _ => none

/-- Model of Python float(value): numbers pass through, strings are
parsed, anything else raises (none). -/
def pyFloat (v : DicomValue) : Option Rat :=
  match v with
  | .int n => some ((n : Rat))
  | .str s => parseDecimal s
  | _ => none

/-- Round-half-even on rationals, the rule Python round follows (the
binary floating point of the source is modelled by exact rationals). -/
def roundHalfEven (q : Rat) : Int :=
  let fl := ⌊q⌋
  let frac := q - (fl : Rat)
  if frac < 1 / 2 then fl
  else if (1 : Rat) / 2 < frac then fl + 1
  else if fl % 2 = 0 then fl else fl + 1

/-- Model of round(x, 5). -/
def round5 (q : Rat) : Rat := ((roundHalfEven (q * 100000) : Rat)) / 100000

/-- Embedding of extract_pixel_info_from_physical
(dicom_meta_data_handler.py:665): reads the two physical-delta sub-fields
of the first ultrasound-region sequence item, scales by 10 and rounds to
5 decimals; none on any failure. -/
def extract_pixel_info_from_physical (ds : Dataset) : Option (Rat × Rat) :=
  match (seqItemTag ds "00186011" 0 "0018602C").bind pyFloat,
        (seqItemTag ds "00186011" 0 "0018602E").bind pyFloat with
  | some x, some y => some (round5 (x * 10), round5 (y * 10))
  | _, _ => none

/-- Embedding of extract_ultrasound_region
(dicom_meta_data_handler.py:483). -/
def extract_ultrasound_region (ds : Dataset) : Option Int :=
  (seqItemTag ds "00186011" 0 "0018601A").bind pyInt

/-- Embedding of extract_patient_id (dicom_meta_data_handler.py:496). -/
def extract_patient_id (ds : Dataset) : Option Int :=
  (tagStrLookup ds "00100020").bind pyInt

/-- Embedding of extract_issuer_of_patient
(dicom_meta_data_handler.py:508). -/
def extract_issuer_of_patient (ds : Dataset) : Option Int :=
  (tagStrLookup ds "00100021").bind pyInt

/-- Pairs collected from one referenced-SOP sequence; accessing the value
of a missing series or SOP UID element raises in the source (the default
of Dataset.get is a plain string without a value attribute), which the
blanket except turns into an overall none, modelled by the option monad. -/
def srPairsOfSopItems (seriesUID : Option DicomValue)
    (sopItems : List (List (Nat × DicomValue))) :
    Option (List (String × String)) :=
  sopItems.foldl (fun acc sopItem =>
      acc.bind (fun l =>
        match seriesUID,
              (sopItem.find? (fun p => p.fst = 0x00081155)).map (fun p => p.snd) with
        | some sv, some pv => some (l ++ [(pyStr sv, pyStr pv)])
        | _, _ => none))
    (some [])

/-- Embedding of extract_sr_referenced_instances
(dicom_meta_data_handler.py:438): only for modality SR, walks the
0040A375 sequence through referenced-series (00081115) and
referenced-SOP (00081199) sub-sequences collecting
(SeriesInstanceUID, ReferencedSOPInstanceUID) pairs; returns none when
the modality check fails, the sequence is absent or malformed, or no
pairs were collected. -/
def extract_sr_referenced_instances (ds : Dataset) :
    Option (List (String × String)) :=
  if getDicomTag ds "00080060" = "SR" then
    match tagStrLookup ds "0040A375" with
    | none => none
    | some (.seq items) =>
      let collected := items.foldl (fun acc item =>
          acc.bind (fun l =>
            match (item.find? (fun p => p.fst = 0x00081115)).map (fun p => p.snd) with
            | some (DicomValue.seq seriesItems) =>
              seriesItems.foldl (fun acc2 sitem =>
                  acc2.bind (fun l2 =>
                    match (sitem.find? (fun p => p.fst = 0x00081199)).map
                        (fun p => p.snd) with
                    | some (DicomValue.seq sopItems) =>
                      (srPairsOfSopItems
                          ((sitem.find? (fun p => p.fst = 0x0020000E)).map
                            (fun p => p.snd)) sopItems).map (fun l3 => l2 ++ l3)
                    | some _ => none
                    | none => some l2))
                (some l)
            | some _ => none
            | none => some l))
        (some [])
      match collected with
      | none => none
      | some l => if l.isEmpty then none else some l
    | some _ => none
  else none

/-- Result of extract_full_metadata (dicom_meta_data_handler.py:520). -/
structure FullMetadata where
  tag_extraction : TagExtraction
  attribute_extraction : AttrExtraction
  file_metadata : FileMetaInfo
  pixel_info : Option (Rat × Rat)
  frames : Option Int
  ultrasound_region : Option Int
  patient_id : Option Int
  issuer_of_patient_id : Option Int

/-- Embedding of extract_full_metadata (dicom_meta_data_handler.py:520),
the producer of the extractor dictionary consumed by the reconciler. -/
def extract_full_metadata (ds : Dataset) : FullMetadata :=
  { tag_extraction := extract_by_tags ds
    attribute_extraction := extract_by_attributes ds
    file_metadata := extract_file_meta ds
    pixel_info := extract_pixel_info_from_physical ds
    frames := extract_frames_by_pixelData_length ds
    ultrasound_region := extract_ultrasound_region ds
    patient_id := extract_patient_id ds
    issuer_of_patient_id := extract_issuer_of_patient ds }

/-- Embedding of the nested helper get_value of extract_dicom_metadata
(dicom_meta_data_handler.py:555).  Python evaluates both arguments before
the call, so the try around the statement returning primary_path can
never raise there, and the fallback branches are unreachable: the
function returns its first argument unconditionally, whatever the
arguments are.  (A lookup error in an argument expression would propagate
at the call site, before get_value runs; the expressions actually passed
are lookups into dictionaries whose keys always exist.) -/
def get_value {α : Sort _} {β : Sort _} (primary_path : α) (fallback_path : β) :
    α :=
  primary_path

/-- Shape of the pixel_spacing entry of the reconciled metadata: either
the pair derived from the physical deltas, or the tag-path PixelSpacing
string split on the semicolon-space delimiter (the split of a string
never raises and never yields an empty list, so the second fallback to
null in the source is unreachable). -/
inductive PixelSpacingVal where
  | physical (x y : Rat)
  | tagParts (parts : List String)

/-- The reconciled metadata record built by extract_dicom_metadata.
Possibly-null slots are Options; the slots fed by get_value over the
always-present extraction strings are filled with some values. -/
structure DicomMetadata where
  study_instance_uid : Option String
  series_instance_uid : Option String
  instance_uid : Option String
  description : Option String
  frames : Option Int
  modality : Option String
  pixel_spacing : PixelSpacingVal
  ultrasound_region : Option Int
  transfer_syntax_uid : Option String
  sop_class_uid : Option String
  sr_referenced_instances : Option (List (String × String))
  issuer_of_patient_id : Option String
  patient_id : Option String

/-- The critical-field list of extract_dicom_metadata
(dicom_meta_data_handler.py:641); the transfer_syntax entry is the field
this development names transfer_syntax_uid. -/
def criticalFieldNames : List String :=
  ["study_instance_uid", "series_instance_uid", "instance_uid", "modality",
    "transfer_syntax"]

/-- The per-field is-None test of the critical-field validation. -/
def criticalFieldIsNone (m : DicomMetadata) (f : String) : Bool :=
  if f = "study_instance_uid" then m.study_instance_uid.isNone
  else if f = "series_instance_uid" then m.series_instance_uid.isNone
  else if f = "instance_uid" then m.instance_uid.isNone
  else if f = "modality" then m.modality.isNone
  else if f = "transfer_syntax" then m.transfer_syntax_uid.isNone
  else false

/-- Embedding of extract_dicom_metadata (dicom_meta_data_handler.py:548),
the reconciler: builds the metadata record from the extractor via
get_value, then raises ValueError (modelled as Except.error) listing the
critical fields whose value is None. -/
def extract_dicom_metadata (ds : Dataset) (extractor : FullMetadata) :
    Except String DicomMetadata :=
  let frames := extract_frames_by_pixelData_length ds
  let modality : Option String :=
    get_value (some extractor.tag_extraction.series_info.Modality)
      (some extractor.attribute_extraction.series_info.Modality)
  let sr_refrenced_instances : Option (List (String × String)) :=
    if modality = some "SR" then extract_sr_referenced_instances ds else none
  let pixel_spacing : PixelSpacingVal :=
    match extractor.pixel_info with
    | some (x, y) => .physical x y
    | none =>
      .tagParts (extractor.tag_extraction.geometry.PixelSpacing.splitOn "; ")
  let metadata : DicomMetadata :=
    { study_instance_uid :=
        get_value (some extractor.tag_extraction.study_info.StudyInstanceUID)
          (some extractor.attribute_extraction.study_info.StudyInstanceUID)
      series_instance_uid :=
        get_value (some extractor.tag_extraction.series_info.SeriesInstanceUID)
          (some extractor.attribute_extraction.series_info.SeriesInstanceUID)
      instance_uid :=
        get_value (some extractor.tag_extraction.image_info.SOPInstanceUID)
          (some extractor.attribute_extraction.instance_info.SOPInstanceUID)
      description :=
        get_value (some extractor.tag_extraction.study_info.StudyDescription)
          (some extractor.attribute_extraction.series_info.SeriesDescription)
      frames :=
        get_value frames extractor.attribute_extraction.geometry.NumberOfFrames
      modality :=
        get_value (some extractor.tag_extraction.series_info.Modality)
          (some extractor.attribute_extraction.series_info.Modality)
      pixel_spacing := pixel_spacing
      ultrasound_region := extractor.ultrasound_region
      transfer_syntax_uid :=
        get_value (some extractor.file_metadata.TransferSyntaxUID)
          (some extractor.tag_extraction.transfer_syntax_info.TransferSyntaxUID)
      sop_class_uid :=
        get_value (some extractor.tag_extraction.image_info.SOPClassUID)
          (some extractor.file_metadata.MediaStorageSOPClassUID)
      sr_referenced_instances := sr_refrenced_instances
      issuer_of_patient_id :=
        get_value (some extractor.tag_extraction.patient_info.IssuerOfPatientID)
          (some "DCM4CHEE")
      patient_id :=
        get_value (some extractor.tag_extraction.patient_info.PatientID)
          (some "1") }
  let missing_fields :=
    criticalFieldNames.filter (fun f => criticalFieldIsNone metadata f)
  if missing_fields.isEmpty then .ok metadata
  else
    .error ("Missing critical metadata fields: " ++
      String.intercalate ", " missing_fields)

/-- Tag argument of the mutators in
service_utils/dicom_meta_data_handler.py: a hex string such as 00100020,
or a structural (group, element) pair (pydicom Tag objects behave as the
pair). -/
inductive TagArg where
  | strTag (s : String)
  | tupleTag (g e : Nat)

/-- Rendering of a tag argument inside an error message, as Python
format strings print it. -/
def tagArgRender (tag : TagArg) : String :=
  match tag with
  | .strTag s => s
  | .tupleTag g e => "(" ++ toString g ++ ", " ++ toString e ++ ")"

/-- Model of the message of the ValueError Python int(s, 16) raises on a
malformed literal (the quotes Python puts around the literal are
omitted). -/
def int16ErrMsg (s : String) : String :=
  "invalid literal for int() with base 16: " ++ s

/-- Model of the message of the OverflowError pydicom Tag construction
raises when a component exceeds 16 bits. -/
def tagOverflowMsg : String :=
  "Tag must be between 0x0000 and 0xFFFF"

/-- Normalization of a mutator tag argument, as the source performs it:
a string splits into int(tag[:4], 16) and int(tag[4:], 16); either parse
failure, or a component out of 16-bit range (which makes the later
pydicom Tag construction raise), is a failure. -/
def normalizeTagArg (tag : TagArg) : Option (Nat × Nat) :=
  match tag with
  | .strTag s =>
    match hexParse (s.take 4), hexParse (s.drop 4) with
    | some g, some e => if e ≤ 0xFFFF then some (g, e) else none
    | _, _ => none
  | .tupleTag g e => if g ≤ 0xFFFF ∧ e ≤ 0xFFFF then some (g, e) else none

/-- Packed numeric tag of a normalized (group, element) pair. -/
def packTag (ge : Nat × Nat) : Nat := ge.fst * 65536 + ge.snd

/-- Whether the dataset has an element with the given packed tag. -/
def datasetHasTag (ds : Dataset) (t : Nat) : Bool :=
  ds.elems.any (fun e => e.tag = t)

/-- In-place value replacement on the element with the given tag,
modelling the assignment self.dicom[tag].value = value. -/
def setTagValue (ds : Dataset) (t : Nat) (v : DicomValue) : Dataset :=
  { ds with
    elems := ds.elems.map (fun e => if e.tag = t then { e with value := v } else e) }

/-- Model of Dataset.add_new: appends a fresh element with the given tag,
VR and value.  The dictionary keyword pydicom would attach is outside
this embedding and is modelled as the empty string; no embedded read
path consults the keyword of an element created by the mutators. -/
def addNewElem (ds : Dataset) (t : Nat) (vr : String) (v : DicomValue) : Dataset :=
  { ds with elems := ds.elems ++ [{ tag := t, keyword := "", vr := vr, value := v }] }

/-- Embedding of DicomMetadataHandler._determine_vr
(service_utils/dicom_meta_data_handler.py:126) as the mutators reach it:
by that point the tag has been normalized to a (group, element) pair,
and the static vr_mappings table is keyed by hex strings, so its lookup
misses and the result always comes from runtime type inference (string
to LO, integer to IS, list to SQ, otherwise UN; the decimal-string
branch for float values is not represented because the embedding
carries no float values). -/
def determine_vr (_tag : Nat × Nat) (value : DicomValue) : String :=
  match value with
  | .str _ => "LO"
  | .int _ => "IS"
  | .list _ => "SQ"
  | .bytes _ => "UN"
  | .seq _ => "UN"

/-- Outcome of the eager value conversion pydicom performs whenever a
value is stored into a data element of a given VR — assignment to an
existing element converts against that element's VR, Dataset.add_new
against the VR passed in — raising, for example, on a non-numeric
string stored into an IS element or on a sequence built from
non-dataset items.  Those conversion rules live in pydicom, outside
this repository, so the embedding takes the outcome as an explicit
argument: none when the conversion succeeds, some message (the
stringified exception) when it raises.  Every theorem about the
mutators holds for every conversion behavior. -/
def ConvOracle : Type := String → DicomValue → Option String

/-- Embedding of update_dicom_tag
(service_utils/dicom_meta_data_handler.py:179).  Every failure path of
the source funnels into a logged return of False: a malformed hex
string (ValueError in int), an out-of-range component (OverflowError in
Tag), a value whose conversion into the existing element's VR raises
(caught by the outer blanket except), a missing tag when
add_if_not_exists is False, and a value whose conversion under the
inferred VR makes add_new raise (caught by the inner except).  On
success the element is updated in place or created with the inferred
VR.  Returns the flag together with the (possibly updated) dataset. -/
def update_dicom_tag (conv : ConvOracle) (ds : Dataset) (tag : TagArg)
    (value : DicomValue) (add_if_not_exists : Bool) : Bool × Dataset :=
  match normalizeTagArg tag with
  | none => (false, ds)
  | some ge =>
    let t := packTag ge
    match ds.elems.find? (fun e => e.tag = t) with
    | some e =>
      match conv e.vr value with
      | none => (true, setTagValue ds t value)
      | some _ => (false, ds)
    | none =>
      if !add_if_not_exists then (false, ds)
      else
        let vr := determine_vr ge value
        match conv vr value with
        | none => (true, addNewElem ds t vr value)
        | some _ => (false, ds)

/-- One iteration of the bulk_update_tags loop
(service_utils/dicom_meta_data_handler.py:233): run update_dicom_tag
with its default add_if_not_exists of True on the current record, append
the tag to the collected list only when it returned True, and carry the
(possibly updated) record on. -/
def bulkStep (conv : ConvOracle) (acc : List String × Dataset)
    (tu : String × DicomValue) : List String × Dataset :=
  let r := update_dicom_tag conv acc.snd (.strTag tu.fst) tu.snd true
  (if r.fst then acc.fst ++ [tu.fst] else acc.fst, r.snd)

/-- Embedding of bulk_update_tags
(service_utils/dicom_meta_data_handler.py:223): applies update_dicom_tag
(with its default add_if_not_exists of True) to each (tag, value) pair
in order, collecting the tags for which it returned True; the dictionary
argument of the source iterates in insertion order and is modelled as a
list of pairs. -/
def bulk_update_tags (conv : ConvOracle) (ds : Dataset)
    (tag_updates : List (String × DicomValue)) : List String × Dataset :=
  tag_updates.foldl (bulkStep conv) ([], ds)

/-- Core of add_dicom_tag_if_missing after tag normalization: an
out-of-range component raises (wrapped, with the tag now printed as a
pair); an existing tag is left alone with False; on a fresh tag, a
conversion failure in add_new re-raises wrapped the same way, and
success adds the element and reports True. -/
def addIfMissingCore (conv : ConvOracle) (ds : Dataset) (ge : Nat × Nat)
    (value : DicomValue) : Except String (Bool × Dataset) :=
  if ge.fst ≤ 0xFFFF ∧ ge.snd ≤ 0xFFFF then
    let t := packTag ge
    if datasetHasTag ds t then .ok (false, ds)
    else
      let vr := determine_vr ge value
      match conv vr value with
      | none => .ok (true, addNewElem ds t vr value)
      | some msg =>
        .error ("Error adding DICOM tag " ++
          tagArgRender (.tupleTag ge.fst ge.snd) ++ ": " ++ msg)
  else
    .error ("Error adding DICOM tag " ++ tagArgRender (.tupleTag ge.fst ge.snd) ++
      ": " ++ tagOverflowMsg)

/-- Embedding of add_dicom_tag_if_missing
(service_utils/dicom_meta_data_handler.py:238, and the identical method
of the main handler at dicom_meta_data_handler.py:128): unlike
update_dicom_tag, its blanket except re-raises every internal failure as
a ValueError (modelled as Except.error) whose message wraps the
underlying error; a string tag failing int(tag[:4], 16) reports that
parse error with the tag still in its original string form. -/
def add_dicom_tag_if_missing (conv : ConvOracle) (ds : Dataset) (tag : TagArg)
    (value : DicomValue) : Except String (Bool × Dataset) :=
  match tag with
  | .strTag s =>
    match hexParse (s.take 4), hexParse (s.drop 4) with
    | none, _ =>
      .error ("Error adding DICOM tag " ++ s ++ ": " ++ int16ErrMsg (s.take 4))
    | some _, none =>
      .error ("Error adding DICOM tag " ++ s ++ ": " ++ int16ErrMsg (s.drop 4))
    | some g, some e => addIfMissingCore conv ds (g, e) value
  | .tupleTag g e => addIfMissingCore conv ds (g, e) value

/-- One concrete conversion behavior for the closed examples, agreeing
with pydicom on the values they store: an IS element accepts integers
and integer strings and rejects anything else (pydicom's eager IS
conversion raises on the non-numeric string X), an SQ value must be a
sequence of dataset items (pydicom raises on a plain list of scalars),
and every other combination the examples use converts without error. -/
def exampleConv : ConvOracle := fun vr value =>
  if vr = "IS" then
    match value with
    | .int _ => none
    | .str s =>
      if (parseIntChars s.data).isSome then none
      else some ("invalid IS value: " ++ s)
    | _ => some "invalid IS value"
  else if vr = "SQ" then
    match value with
    | .seq _ => none
    | _ => some "sequence items must be datasets"
  else none

/-- A data element of a C-FIND response identifier: dictionary keyword,
VR, and value. -/
structure NetElement where
  keyword : String
  vr : String
  value : DicomValue

/-- Per-element coercion of the find_studies drain
(dicom_network_interface_imp.py:237): person names, dates and times are
stringified, every other VR keeps its raw value. -/
def coerceFindElem (e : NetElement) : DicomValue :=
  if e.vr = "PN" ∨ e.vr = "DA" ∨ e.vr = "TM" then .str (pyStr e.value) else e.value

/-- Coercion of a whole response identifier into the flat result record:
elements with a blank keyword are skipped, the rest keep stream order
(the source accumulates into a dictionary in insertion order). -/
def coerceIdentifier (elems : List NetElement) : List (String × DicomValue) :=
  (elems.filter (fun e => !e.keyword.isEmpty)).map
    (fun e => (e.keyword, coerceFindElem e))

/-- Model of pynetdicom.status.code_to_category, the external helper the
drains call, on the DICOM status-code ranges: 0x0000 success, 0xFF00 and
0xFF01 pending, 0xFE00 cancel, the A and C ranges (and 0x0122) failure,
0x0001 and the B range warning. -/
def code_to_category (code : Nat) : String :=
  if code = 0x0000 then "Success"
  else if code = 0xFF00 ∨ code = 0xFF01 then "Pending"
  else if code = 0xFE00 then "Cancel"
  else if (0xA000 ≤ code ∧ code ≤ 0xAFFF) ∨ (0xC000 ≤ code ∧ code ≤ 0xCFFF) ∨
      code = 0x0122 then "Failure"
  else if code = 0x0001 ∨ (0xB000 ≤ code ∧ code ≤ 0xBFFF) then "Warning"
  else "Unknown"

/-- One (status, identifier) pair of the C-FIND response stream; a none
status models a timed-out, aborted or invalid response. -/
structure FindResponse where
  status : Option Nat
  identifier : Option (List NetElement)

/-- The record a response contributes to the result list, if any: only a
status equal to 0xFF00 with a truthy (present and non-empty) identifier
appends its coerced record. -/
def pendingRecord (r : FindResponse) : Option (List (String × DicomValue)) :=
  match r.status with
  | some code =>
    if code = 0xFF00 then
      match r.identifier with
      | some elems => if elems.isEmpty then none else some (coerceIdentifier elems)
      | none => none
    else none
  | none => none

/-- Embedding of the response-drain loop of find_studies
(dicom_network_interface_imp.py:227): every response is visited in
stream order; a 0xFF00 status with a truthy identifier appends its
coerced record; a 0x0000 status and the cancel, failure and warning
categories are only logged; a missing status is only logged.  No status
stops the iteration or discards what was already accumulated. -/
def drain_find_responses (responses : List FindResponse) :
    List (List (String × DicomValue)) :=
  responses.foldl
    (fun results r =>
      match r.status with
      | none => results
      | some code =>
        if code = 0xFF00 then
          match r.identifier with
          | some elems =>
            if elems.isEmpty then results else results ++ [coerceIdentifier elems]
          | none => results
        else results)
    []

/-- Outcome of find_studies after a normal drain
(dicom_network_interface_imp.py:255): the association is released and a
successful DicomResult carrying the accumulated list is returned,
whatever statuses were observed. -/
def find_studies_result (responses : List FindResponse) :
    Bool × List (List (String × DicomValue)) :=
  (true, drain_find_responses responses)

/-- Embedding of the QueryRetrieveLevel selection of find_studies
(dicom_network_interface_imp.py:204), a function of which keys the
query_params dictionary carries. -/
def query_retrieve_level (query_params : List String) : String :=
  if query_params.contains "PatientID" ∧
      ¬(query_params.contains "StudyInstanceUID" ∨
        query_params.contains "SeriesInstanceUID") then "PATIENT"
  else if query_params.contains "StudyInstanceUID" ∧
      ¬query_params.contains "SeriesInstanceUID" then "STUDY"
  else if query_params.contains "SeriesInstanceUID" then "SERIES"
  else "STUDY"

/-- Level selection as the specification words it, for comparison with
the code: a series identifier present selects SERIES; otherwise a study
identifier present (and no series) selects STUDY; otherwise only a
patient identifier present selects PATIENT; otherwise STUDY. -/
def specQueryLevel (query_params : List String) : String :=
  if query_params.contains "SeriesInstanceUID" then "SERIES"
  else if query_params.contains "StudyInstanceUID" then "STUDY"
  else if query_params.contains "PatientID" then "PATIENT"
  else "STUDY"

/-- Accumulator entry of the series_data dictionary of find_and_get_study
(dicom_network_interface_imp.py:759): descriptive fields seeded from the
first record of the series, plus its instance list.  The per-instance
coerced payload does not influence grouping or ordering and the
instances are modelled by the received datasets themselves. -/
structure SeriesGroupData where
  SeriesDescription : DicomValue
  Modality : DicomValue
  SeriesNumber : DicomValue
  instances : List Dataset

/-- Embedding of the series_data construction of find_and_get_study
(dicom_network_interface_imp.py:752): per received dataset carrying a
SeriesInstanceUID, the first occurrence of the series seeds the group
with the descriptive fields (defaulting to the empty string), and every
occurrence appends the record to the instance list; datasets without a
SeriesInstanceUID join no group.  The dictionary keeps insertion order
and is modelled as an ordered association list. -/
def build_series_data (received : List Dataset) :
    List (String × SeriesGroupData) :=
  received.foldl
    (fun sd dataset =>
      match kwLookup dataset "SeriesInstanceUID" with
      | none => sd
      | some v =>
        let series_uid := pyStr v
        let sd1 :=
          if sd.any (fun p => p.fst = series_uid) then sd
          else sd ++ [(series_uid,
            { SeriesDescription := (kwLookup dataset "SeriesDescription").getD (.str "")
              Modality := (kwLookup dataset "Modality").getD (.str "")
              SeriesNumber := (kwLookup dataset "SeriesNumber").getD (.str "")
              instances := [] })]
        sd1.map (fun p =>
          if p.fst = series_uid then
            (p.fst, { p.snd with instances := p.snd.instances ++ [dataset] })
          else p))
    []

/-- One entry of the series_list built from series_data
(dicom_network_interface_imp.py:815). -/
structure SeriesEntry where
  SeriesInstanceUID : String
  SeriesDescription : DicomValue
  Modality : DicomValue
  SeriesNumber : DicomValue
  InstanceCount : Nat
  instances : List Dataset

/-- The series_list comprehension over series_data. -/
def series_list_of (sd : List (String × SeriesGroupData)) : List SeriesEntry :=
  sd.map (fun p =>
    { SeriesInstanceUID := p.fst
      SeriesDescription := p.snd.SeriesDescription
      Modality := p.snd.Modality
      SeriesNumber := p.snd.SeriesNumber
      InstanceCount := p.snd.instances.length
      instances := p.snd.instances })

/-- Python str.isdigit on the strings this code sorts: nonempty and all
decimal digits. -/
def isDigitString (s : String) : Bool :=
  !s.isEmpty ∧ s.data.all Char.isDigit

/-- The sort key of the series_list sort
(dicom_network_interface_imp.py:826): int(SeriesNumber) when the value
is truthy and its string form is all digits, the literal 9999 otherwise.
The getD default of the conversion is never taken (a value whose string
form is all digits converts); it is kept only for totality. -/
def seriesSortKey (x : SeriesEntry) : Int :=
  if pyTruthy x.SeriesNumber ∧ isDigitString (pyStr x.SeriesNumber) then
    (pyInt x.SeriesNumber).getD 9999
  else 9999

/-- Stable insertion of an element into a key-sorted list: the new
element goes after every element of key less than or equal to its own,
as Python stable ascending sort places later list elements. -/
def insertByKey {α : Type} (key : α → Int) (x : α) : List α → List α
  | [] => [x]
  | y :: ys => if key y ≤ key x then y :: insertByKey key x ys else x :: y :: ys

/-- Stable ascending sort by key, modelling Python list.sort with a key
function. -/
def sortByKey {α : Type} (key : α → Int) (l : List α) : List α :=
  l.foldl (fun acc x => insertByKey key x acc) []

/-- The grouped, ordered series list find_and_get_study returns: groups
built in arrival order, then sorted ascending by seriesSortKey. -/
def find_and_get_series_list (received : List Dataset) : List SeriesEntry :=
  sortByKey seriesSortKey (series_list_of (build_series_data received))

/-! Concrete records used to evaluate the embedded pipeline. -/

/-- A record carrying no fields at all: every extraction path misses. -/
def emptyDataset : Dataset := ⟨[], []⟩

/-- A record whose only field is a SeriesDescription of X: the tag path
of the reconciled description (StudyDescription, tag 00081030) misses
while the attribute path (SeriesDescription) yields X. -/
def seriesDescDataset : Dataset :=
  ⟨[⟨0x0008103E, "SeriesDescription", "LO", .str "X"⟩], []⟩

/-- A record with no explicit frame count, a 3-byte pixel payload, unit
rows and columns, and 12 bits allocated. -/
def framesBits12Dataset : Dataset :=
  ⟨[⟨0x7FE00010, "PixelData", "OW", .bytes [0, 0, 0]⟩,
    ⟨0x00280010, "Rows", "US", .int 1⟩,
    ⟨0x00280011, "Columns", "US", .int 1⟩,
    ⟨0x00280100, "BitsAllocated", "US", .int 12⟩], []⟩

/-- The 512 by 512 by 16-bit record of the claim, with a payload of three
exact frames. -/
def frames512Dataset : Dataset :=
  ⟨[⟨0x7FE00010, "PixelData", "OW", .bytes (List.replicate 1572864 0)⟩,
    ⟨0x00280010, "Rows", "US", .int 512⟩,
    ⟨0x00280011, "Columns", "US", .int 512⟩,
    ⟨0x00280100, "BitsAllocated", "US", .int 16⟩], []⟩

/-- A record whose Modality element holds the byte string 41 FF 42: the
middle byte is not valid UTF-8. -/
def bytesModalityDataset : Dataset :=
  ⟨[⟨0x00080060, "Modality", "CS", .bytes [65, 255, 66]⟩], []⟩

/-- A record whose PixelSpacing element is a two-element multi-value. -/
def multiValueDataset : Dataset :=
  ⟨[⟨0x00280030, "PixelSpacing", "DS", .list [.str "0.5", .str "0.75"]⟩], []⟩

/-- Frame-count formula of claim C3 read literally from the
specification: the floor of payloadLength over rows times columns times
bitsAllocated-over-8 (exact division, so the floor of 8 times the payload
over rows times columns times bitsAllocated), clamped to a minimum
of 1. -/
def frameCountClaimFormula (payloadLength rows columns bitsAllocated : Int) : Int :=
  max 1 (Int.fdiv (payloadLength * 8) (rows * columns * bitsAllocated))

/-- C1: the critical-field validation of extract_dicom_metadata can
never fire.  Every one of the five critical slots is filled by get_value
applied to an always-present extraction string wrapped in some, so the
is-None test is false for all of them, whatever the record: the
reconciler always returns ok.  In particular the empty record, for which
neither extraction path resolves any critical field, reconciles without
error, every critical field holding the empty string.  (The claim, and
the raise carried by the source itself, expect a ValidationError listing
the missing fields here.) -/
theorem extract_dicom_metadata_never_fails :
    (∀ (ds : Dataset) (extractor : FullMetadata),
      ∃ m, extract_dicom_metadata ds extractor = .ok m) ∧
    (∃ m,
      extract_dicom_metadata emptyDataset (extract_full_metadata emptyDataset) =
        .ok m ∧
      m.study_instance_uid = some "" ∧ m.series_instance_uid = some "" ∧
      m.instance_uid = some "" ∧ m.modality = some "" ∧
      m.transfer_syntax_uid = some "") :=
  ⟨fun _ _ => ⟨_, rfl⟩, ⟨_, rfl, rfl, rfl, rfl, rfl, rfl⟩⟩

/-- C2: the fallback of get_value is dead code.  Python evaluates both
arguments before the call, so get_value returns its first argument for
all arguments of all types, and the attribute-path value is never used:
on a record whose StudyDescription tag is absent but whose
SeriesDescription attribute is X, the reconciled description is the
tag-path default (the empty string), not the attribute-path X the
claim prescribes. -/
theorem get_value_ignores_fallback :
    (∀ (α β : Type) (primary : α) (fallback : β),
      get_value primary fallback = primary) ∧
    (extract_full_metadata seriesDescDataset).tag_extraction.study_info.StudyDescription
      = "" ∧
    (extract_full_metadata seriesDescDataset).attribute_extraction.series_info.SeriesDescription
      = "X" ∧
    (∃ m,
      extract_dicom_metadata seriesDescDataset
          (extract_full_metadata seriesDescDataset) = .ok m ∧
      m.description = some "") :=
  ⟨fun _ _ _ _ => rfl, rfl, rfl, ⟨_, rfl, rfl⟩⟩

/-- C3 counterexample: on a record with no explicit frame count, a 3-byte
payload, rows and columns of 1 and 12 bits allocated, the code computes
with bytes-per-pixel equal to 12 integer-divided by 8, that is 1, and
returns 3 frames, while the formula of the claim (exact division by
bitsAllocated over 8) yields 2. -/
theorem extract_frames_formula_counterexample :
    extract_frames_by_pixelData_length framesBits12Dataset = some 3 ∧
    frameCountClaimFormula 3 1 1 12 = 2 ∧
    extract_frames_by_pixelData_length framesBits12Dataset ≠
      some (frameCountClaimFormula 3 1 1 12) := by
  refine ⟨rfl, by decide, ?_⟩
  decide

/-- C3 as amended: the explicit frame-count field is returned through
int() unchanged; with the field absent and a byte payload present,
positive rows and columns and at least 8 bits allocated, the result is
the floor of the payload length over rows times columns times
bytes-per-pixel, where bytes-per-pixel is the integer division of
bitsAllocated by 8, clamped to a minimum of 1; with fewer than 8 bits
allocated the division by a zero frame size is caught and the result is
none (unknown); with neither field present the result is 1.  The
function is total: no input raises. -/
theorem extract_frames_spec (ds : Dataset) :
    (∀ n : Int, kwLookup ds "NumberOfFrames" = some (.int n) →
      extract_frames_by_pixelData_length ds = some n) ∧
    (∀ (bs : List Nat) (r c b : Int),
      kwLookup ds "NumberOfFrames" = none →
      kwLookup ds "PixelData" = some (.bytes bs) →
      kwLookup ds "Rows" = some (.int r) →
      kwLookup ds "Columns" = some (.int c) →
      kwLookup ds "BitsAllocated" = some (.int b) →
      0 < r → 0 < c → 8 ≤ b →
      extract_frames_by_pixelData_length ds =
        some (max 1 (Int.fdiv (bs.length : Int) (r * c * Int.fdiv b 8)))) ∧
    (∀ (bs : List Nat) (r c b : Int),
      kwLookup ds "NumberOfFrames" = none →
      kwLookup ds "PixelData" = some (.bytes bs) →
      kwLookup ds "Rows" = some (.int r) →
      kwLookup ds "Columns" = some (.int c) →
      kwLookup ds "BitsAllocated" = some (.int b) →
      0 < r → 0 < c → 0 < b → b < 8 →
      extract_frames_by_pixelData_length ds = none) ∧
    (kwLookup ds "NumberOfFrames" = none → kwLookup ds "PixelData" = none →
      extract_frames_by_pixelData_length ds = some 1) := by
  refine ⟨?_, ?_, ?_, ?_⟩
  · intro n h
    simp [extract_frames_by_pixelData_length, h, pyInt]
  · intro bs r c b hnf hpd hr hc hb hrpos hcpos hb8
    have hfd : (1 : Int) ≤ Int.fdiv b 8 := by
      rw [Int.fdiv_eq_ediv _ (by norm_num)]
      exact (Int.le_ediv_iff_mul_le (by norm_num)).mpr (by omega)
    have hfs : 0 < r * c * Int.fdiv b 8 := by positivity
    have hnum : 0 ≤ Int.fdiv (bs.length : Int) (r * c * Int.fdiv b 8) :=
      Int.fdiv_nonneg (by positivity) (le_of_lt hfs)
    simp only [extract_frames_by_pixelData_length, hnf, hpd, hr, hc, hb,
      Option.getD_some, pyInt, pyLen]
    rw [if_pos ⟨hrpos, hcpos, by omega⟩, if_neg (by omega)]
    split_ifs with h
    · simp only [Option.some.injEq]
      omega
    · simp only [Option.some.injEq]
      omega
  · intro bs r c b hnf hpd hr hc hb hrpos hcpos hbpos hb8
    have hfd : Int.fdiv b 8 = 0 := by
      rw [Int.fdiv_eq_ediv _ (by norm_num)]
      exact Int.ediv_eq_zero_of_lt (by omega) (by omega)
    simp only [extract_frames_by_pixelData_length, hnf, hpd, hr, hc, hb,
      Option.getD_some, pyInt, pyLen]
    rw [if_pos ⟨hrpos, hcpos, hbpos⟩, if_pos (by rw [hfd]; ring)]
  · intro hnf hpd
    simp [extract_frames_by_pixelData_length, hnf, hpd]

/-- C3 witness: the concrete instance of the claim, 512 by 512, 16 bits,
a payload of three exact frames, yields 3. -/
theorem extract_frames_spec_witness :
    extract_frames_by_pixelData_length frames512Dataset = some 3 := by
  have h := (extract_frames_spec frames512Dataset).2.1 (List.replicate 1572864 0)
    512 512 16 rfl rfl rfl rfl rfl (by norm_num) (by norm_num) (by norm_num)
  rw [h, List.length_replicate]
  decide

/-- C8 counterexample: the accessor decodes the byte string 41 FF 42 with
errors ignored, yielding AB with the invalid byte dropped, whereas
decoding with replacement (the behavior the claim states) yields A,
U+FFFD, B. -/
theorem get_dicom_tag_decode_counterexample :
    getDicomTag bytesModalityDataset "00080060" = "AB" ∧
    utf8Decode .replaceErrors [65, 255, 66] = "A�B" ∧
    getDicomTag bytesModalityDataset "00080060" ≠
      utf8Decode .replaceErrors [65, 255, 66] := by
  refine ⟨rfl, rfl, ?_⟩
  decide

/-- C8 as amended: a list or multi-value field is returned as its
elements stringified and joined with semicolon-space; a byte-string value
is decoded as UTF-8 with undecodable bytes dropped (errors ignored), not
replaced; and a failed lookup returns the empty-string default, so the
accessor never raises. -/
theorem get_dicom_tag_spec (ds : Dataset) (tag : String) :
    (∀ vs, tagStrLookup ds tag = some (.list vs) →
      getDicomTag ds tag = String.intercalate "; " (vs.map pyScalarStr)) ∧
    (∀ bs, tagStrLookup ds tag = some (.bytes bs) →
      getDicomTag ds tag = utf8Decode .ignoreErrors bs) ∧
    (tagStrLookup ds tag = none → getDicomTag ds tag = "") := by
  refine ⟨?_, ?_, ?_⟩ <;> intro h
  · intro hl
    simp [getDicomTag, hl]
  · intro hb
    simp [getDicomTag, hb]
  · simp [getDicomTag, h]

/-- C8 witness: the accessor on a concrete multi-value joins with the
delimiter, and on a concrete byte string returns the ignore-mode
decoding. -/
theorem get_dicom_tag_spec_witness :
    getDicomTag multiValueDataset "00280030" = "0.5; 0.75" ∧
    getDicomTag bytesModalityDataset "00080060" =
      utf8Decode .ignoreErrors [65, 255, 66] := by
  constructor
  · have h := (get_dicom_tag_spec multiValueDataset "00280030").1
      [.str "0.5", .str "0.75"] rfl
    rw [h]; rfl
  · exact (get_dicom_tag_spec bytesModalityDataset "00080060").2.1 [65, 255, 66] rfl

/-- A record with an existing SeriesNumber element of VR IS, the target
of an in-place update whose value conversion fails. -/
def seriesNumberISDataset : Dataset :=
  ⟨[⟨0x00200011, "SeriesNumber", "IS", .int 5⟩], []⟩

/-- One bulk step written out: the identifier is appended to the
collected list exactly when its update returned True, and the record
moves to the update's result either way. -/
theorem bulkStep_eq (conv : ConvOracle) (a : List String) (ds : Dataset)
    (tu : String × DicomValue) :
    bulkStep conv (a, ds) tu =
      (a ++ (if (update_dicom_tag conv ds (.strTag tu.fst) tu.snd true).fst then
          [tu.fst]
        else []),
        (update_dicom_tag conv ds (.strTag tu.fst) tu.snd true).snd) := by
  unfold bulkStep
  by_cases h : (update_dicom_tag conv ds (.strTag tu.fst) tu.snd true).fst <;>
    simp [h]

/-- The bulk fold with an explicit list accumulator: prefixing the
accumulator only prefixes the result. -/
theorem bulk_update_tags_acc (conv : ConvOracle) (l : List (String × DicomValue)) :
    ∀ (ds : Dataset) (acc : List String),
      l.foldl (bulkStep conv) (acc, ds) =
        (acc ++ (bulk_update_tags conv ds l).fst,
          (bulk_update_tags conv ds l).snd) := by
  induction l with
  | nil =>
    intro ds acc
    simp [bulk_update_tags]
  | cons hd tl ih =>
    intro ds acc
    unfold bulk_update_tags
    rw [List.foldl_cons, List.foldl_cons, bulkStep_eq, bulkStep_eq, ih, ih]
    simp

/-- C4 counterexample: in the batch [(00100020, "1"), (00200011, "X")]
on a record whose 00200011 element has VR IS, the first pair is written,
the second pair's upsert fails internally (pydicom's IS conversion
rejects the non-numeric string X, update_dicom_tag returns False), and
bulk_update_tags returns only the first identifier — the claim requires
both.  The same omission shows on a malformed identifier: the failed
ZZZZ0010 is absent from the returned list even though the later pair is
still processed. -/
theorem bulk_update_tags_counterexample :
    (update_dicom_tag exampleConv seriesNumberISDataset (.strTag "00200011")
      (.str "X") true).fst = false ∧
    (bulk_update_tags exampleConv seriesNumberISDataset
      [("00100020", .str "1"), ("00200011", .str "X")]).fst = ["00100020"] ∧
    (update_dicom_tag exampleConv emptyDataset (.strTag "ZZZZ0010") (.str "2")
      true).fst = false ∧
    (bulk_update_tags exampleConv emptyDataset
      [("ZZZZ0010", .str "2"), ("00100020", .str "1")]).fst = ["00100020"] :=
  ⟨rfl, rfl, rfl, rfl⟩

/-- C4 as amended: whatever the conversion behavior of the library,
bulk_update_tags applies the single-field upsert to every pair in
order — the empty batch returns the record unchanged, and each step
passes the possibly-updated record on to the remaining pairs, so no
failure (malformed tag or failed value conversion) aborts the batch —
but the returned list collects only the identifiers whose individual
upsert returned True; identifiers whose write failed are omitted,
matching the docstring of the source (a list of successfully updated
tags). -/
theorem bulk_update_tags_spec (conv : ConvOracle) (ds : Dataset)
    (tu : String × DicomValue) (l : List (String × DicomValue)) :
    bulk_update_tags conv ds [] = ([], ds) ∧
    bulk_update_tags conv ds (tu :: l) =
      ((if (update_dicom_tag conv ds (.strTag tu.fst) tu.snd true).fst then
          [tu.fst]
        else []) ++
          (bulk_update_tags conv
            (update_dicom_tag conv ds (.strTag tu.fst) tu.snd true).snd l).fst,
        (bulk_update_tags conv
          (update_dicom_tag conv ds (.strTag tu.fst) tu.snd true).snd l).snd) := by
  refine ⟨rfl, ?_⟩
  have hcons : bulk_update_tags conv ds (tu :: l) =
      l.foldl (bulkStep conv) (bulkStep conv ([], ds) tu) := by
    unfold bulk_update_tags
    rw [List.foldl_cons]
  rw [hcons, bulkStep_eq, bulk_update_tags_acc]
  simp

/-- C9: update_dicom_tag is total at its public boundary for every
conversion behavior of the library: it returns a flag and a record, and
every internal failure is absorbed into a False flag — a tag whose
normalization fails (malformed hex string, out-of-range component), a
present element whose value conversion raises on in-place replacement,
a missing element whose creation raises under the inferred VR, and a
missing element with add_if_not_exists False; success holds only when
the relevant conversion succeeds, and every False leaves the record
untouched. -/
theorem update_dicom_tag_total (conv : ConvOracle) (ds : Dataset) (tag : TagArg)
    (value : DicomValue) (add_if_not_exists : Bool) :
    (normalizeTagArg tag = none →
      update_dicom_tag conv ds tag value add_if_not_exists = (false, ds)) ∧
    (∀ ge e, normalizeTagArg tag = some ge →
      ds.elems.find? (fun el => el.tag = packTag ge) = some e →
      update_dicom_tag conv ds tag value add_if_not_exists =
        (match conv e.vr value with
          | none => (true, setTagValue ds (packTag ge) value)
          | some _ => (false, ds))) ∧
    (∀ ge, normalizeTagArg tag = some ge →
      ds.elems.find? (fun el => el.tag = packTag ge) = none →
      update_dicom_tag conv ds tag value add_if_not_exists =
        (if add_if_not_exists then
          match conv (determine_vr ge value) value with
          | none =>
            (true, addNewElem ds (packTag ge) (determine_vr ge value) value)
          | some _ => (false, ds)
        else (false, ds))) ∧
    ((update_dicom_tag conv ds tag value add_if_not_exists).fst = false →
      (update_dicom_tag conv ds tag value add_if_not_exists).snd = ds) := by
  have h1 : normalizeTagArg tag = none →
      update_dicom_tag conv ds tag value add_if_not_exists = (false, ds) := by
    intro h
    unfold update_dicom_tag
    rw [h]
  have h2 : ∀ ge e, normalizeTagArg tag = some ge →
      ds.elems.find? (fun el => el.tag = packTag ge) = some e →
      update_dicom_tag conv ds tag value add_if_not_exists =
        (match conv e.vr value with
          | none => (true, setTagValue ds (packTag ge) value)
          | some _ => (false, ds)) := by
    intro ge e hn hf
    unfold update_dicom_tag
    rw [hn]
    simp only [hf]
  have h3 : ∀ ge, normalizeTagArg tag = some ge →
      ds.elems.find? (fun el => el.tag = packTag ge) = none →
      update_dicom_tag conv ds tag value add_if_not_exists =
        (if add_if_not_exists then
          match conv (determine_vr ge value) value with
          | none =>
            (true, addNewElem ds (packTag ge) (determine_vr ge value) value)
          | some _ => (false, ds)
        else (false, ds)) := by
    intro ge hn hf
    unfold update_dicom_tag
    rw [hn]
    simp only [hf]
    cases add_if_not_exists <;> simp
  refine ⟨h1, h2, h3, ?_⟩
  intro h
  rcases hn : normalizeTagArg tag with _ | ge
  · rw [h1 hn]
  · rcases hf : ds.elems.find? (fun el => el.tag = packTag ge) with _ | e
    · rw [h3 ge hn hf] at h ⊢
      cases add_if_not_exists with
      | false => rfl
      | true =>
        rcases hc : conv (determine_vr ge value) value with _ | msg
        · rw [hc] at h
          simp at h
        · rfl
    · rw [h2 ge e hn hf] at h ⊢
      rcases hc : conv e.vr value with _ | msg
      · rw [hc] at h
        simp at h
      · rfl

/-- C9 witness: the malformed hex string yields False with the record
unchanged; the non-numeric string X into the existing IS element yields
False with the record unchanged (a value-replacement failure); and a
well-formed fresh tag with a convertible value yields True. -/
theorem update_dicom_tag_total_witness :
    update_dicom_tag exampleConv emptyDataset (.strTag "ZZZZ0010") (.str "2")
      true = (false, emptyDataset) ∧
    update_dicom_tag exampleConv seriesNumberISDataset (.strTag "00200011")
      (.str "X") true = (false, seriesNumberISDataset) ∧
    (update_dicom_tag exampleConv emptyDataset (.strTag "00100020") (.str "1")
      true).fst = true := by
  refine ⟨?_, ?_, ?_⟩
  · exact (update_dicom_tag_total exampleConv emptyDataset (.strTag "ZZZZ0010")
      (.str "2") true).1 rfl
  · have h := (update_dicom_tag_total exampleConv seriesNumberISDataset
      (.strTag "00200011") (.str "X") true).2.1 (0x0020, 0x0011)
      ⟨0x00200011, "SeriesNumber", "IS", .int 5⟩ rfl rfl
    rw [h]
    rfl
  · have h := (update_dicom_tag_total exampleConv emptyDataset
      (.strTag "00100020") (.str "1") true).2.2.1 (0x0010, 0x0020) rfl rfl
    rw [h]
    rfl

/-- C10: add_dicom_tag_if_missing, unlike update_dicom_tag, turns every
internal failure into a raised ValueError wrapping the underlying error
message: a string tag failing normalization reports the int() parse
error against the original string form, and a fresh tag whose field
creation fails (the conversion under the inferred VR raises in add_new)
reports the conversion message against the normalized pair form —
while update_dicom_tag on a failing normalization returns False. -/
theorem add_dicom_tag_if_missing_raises (conv : ConvOracle) (ds : Dataset)
    (s : String) (value : DicomValue) :
    (hexParse (s.take 4) = none →
      add_dicom_tag_if_missing conv ds (.strTag s) value =
        .error ("Error adding DICOM tag " ++ s ++ ": " ++ int16ErrMsg (s.take 4))) ∧
    (∀ g, hexParse (s.take 4) = some g → hexParse (s.drop 4) = none →
      add_dicom_tag_if_missing conv ds (.strTag s) value =
        .error ("Error adding DICOM tag " ++ s ++ ": " ++ int16ErrMsg (s.drop 4))) ∧
    (∀ g e msg, hexParse (s.take 4) = some g → hexParse (s.drop 4) = some e →
      g ≤ 0xFFFF → e ≤ 0xFFFF →
      datasetHasTag ds (packTag (g, e)) = false →
      conv (determine_vr (g, e) value) value = some msg →
      add_dicom_tag_if_missing conv ds (.strTag s) value =
        .error ("Error adding DICOM tag " ++ tagArgRender (.tupleTag g e) ++
          ": " ++ msg)) ∧
    (hexParse (s.take 4) = none →
      update_dicom_tag conv ds (.strTag s) value true = (false, ds)) := by
  refine ⟨?_, ?_, ?_, ?_⟩
  · intro h
    unfold add_dicom_tag_if_missing
    simp only [h]
  · intro g hg h
    unfold add_dicom_tag_if_missing
    simp only [hg, h]
  · intro g e msg hg he hgle hele hmem hconv
    unfold add_dicom_tag_if_missing
    simp only [hg, he]
    unfold addIfMissingCore
    rw [if_pos ⟨hgle, hele⟩]
    simp only [hmem, hconv]
    rfl
  · intro h
    unfold update_dicom_tag normalizeTagArg
    simp only [h]

/-- C10 witness: the non-hex identifier ZZZZ0010 raises the wrapped
parse error while update_dicom_tag returns False on the same input; and
the well-formed fresh tag 00200011 with a plain list value — whose
inferred VR is SQ, so pydicom's Sequence construction from non-dataset
items raises in add_new — raises the wrapped conversion error. -/
theorem add_dicom_tag_if_missing_raises_witness :
    add_dicom_tag_if_missing exampleConv emptyDataset (.strTag "ZZZZ0010")
      (.str "2") =
      .error
        "Error adding DICOM tag ZZZZ0010: invalid literal for int() with base 16: ZZZZ" ∧
    update_dicom_tag exampleConv emptyDataset (.strTag "ZZZZ0010") (.str "2")
      true = (false, emptyDataset) ∧
    add_dicom_tag_if_missing exampleConv emptyDataset (.strTag "00200011")
      (.list [.int 1, .int 2, .int 3]) =
      .error
        "Error adding DICOM tag (32, 17): sequence items must be datasets" := by
  refine ⟨?_, ?_, ?_⟩
  · have h := (add_dicom_tag_if_missing_raises exampleConv emptyDataset
      "ZZZZ0010" (.str "2")).1 rfl
    rw [h]
    rfl
  · exact (add_dicom_tag_if_missing_raises exampleConv emptyDataset "ZZZZ0010"
      (.str "2")).2.2.2 rfl
  · have h := (add_dicom_tag_if_missing_raises exampleConv emptyDataset
      "00200011" (.list [.int 1, .int 2, .int 3])).2.2.1 32 17
      "sequence items must be datasets" rfl rfl (by norm_num) (by norm_num)
      rfl rfl
    rw [h]
    rfl

/-- C6: the level selection of find_studies agrees with the precedence
the specification states, for every combination of supplied filter
fields: a series identifier forces SERIES, else a study identifier
forces STUDY, else a lone patient identifier forces PATIENT, else the
level defaults to STUDY. -/
theorem query_level_matches_spec (query_params : List String) :
    query_retrieve_level query_params = specQueryLevel query_params := by
  unfold query_retrieve_level specQueryLevel
  cases hP : query_params.contains "PatientID" <;>
    cases hSt : query_params.contains "StudyInstanceUID" <;>
      cases hSe : query_params.contains "SeriesInstanceUID" <;>
        simp [hP, hSt, hSe]

/-- Membership in a stable insertion: the inserted element plus the old
members. -/
theorem mem_insertByKey {α : Type} (key : α → Int) (x z : α) (l : List α) :
    z ∈ insertByKey key x l ↔ z = x ∨ z ∈ l := by
  induction l with
  | nil => simp [insertByKey]
  | cons y ys ih =>
    by_cases h : key y ≤ key x <;> simp [insertByKey, h, ih] <;> tauto

/-- Stable insertion preserves sortedness by key. -/
theorem pairwise_insertByKey {α : Type} (key : α → Int) (x : α) (l : List α)
    (h : l.Pairwise (fun a b => key a ≤ key b)) :
    (insertByKey key x l).Pairwise (fun a b => key a ≤ key b) := by
  induction l with
  | nil => simp [insertByKey]
  | cons y ys ih =>
    rcases List.pairwise_cons.mp h with ⟨hy, hys⟩
    by_cases hk : key y ≤ key x
    · rw [insertByKey, if_pos hk]
      refine List.pairwise_cons.mpr ⟨?_, ih hys⟩
      intro z hz
      rcases (mem_insertByKey key x z ys).mp hz with rfl | hz
      · exact hk
      · exact hy z hz
    · rw [insertByKey, if_neg hk]
      refine List.pairwise_cons.mpr ⟨?_, h⟩
      intro z hz
      rcases List.mem_cons.mp hz with rfl | hz
      · omega
      · have := hy z hz
        omega

/-- The insertion sort returns a list sorted (nondecreasing) by key. -/
theorem pairwise_sortByKey {α : Type} (key : α → Int) (l : List α) :
    (sortByKey key l).Pairwise (fun a b => key a ≤ key b) := by
  unfold sortByKey
  suffices h : ∀ acc, acc.Pairwise (fun a b => key a ≤ key b) →
      (l.foldl (fun acc x => insertByKey key x acc) acc).Pairwise
        (fun a b => key a ≤ key b) from h [] (by simp)
  induction l with
  | nil =>
    intro acc hacc
    simpa using hacc
  | cons y ys ih =>
    intro acc hacc
    exact ih _ (pairwise_insertByKey key y acc hacc)

/-- A record whose series number is the non-numeric string X. -/
def nonNumericSeriesDataset : Dataset :=
  ⟨[⟨0x0020000E, "SeriesInstanceUID", "UI", .str "A"⟩,
    ⟨0x00200011, "SeriesNumber", "IS", .str "X"⟩], []⟩

/-- A record whose series number is the numeric string 10000, above the
9999 sentinel the sort key uses. -/
def bigNumberSeriesDataset : Dataset :=
  ⟨[⟨0x0020000E, "SeriesInstanceUID", "UI", .str "B"⟩,
    ⟨0x00200011, "SeriesNumber", "IS", .str "10000"⟩], []⟩

/-- Instance of series A with series number 2. -/
def seriesA2Dataset : Dataset :=
  ⟨[⟨0x0020000E, "SeriesInstanceUID", "UI", .str "A"⟩,
    ⟨0x00200011, "SeriesNumber", "IS", .int 2⟩], []⟩

/-- Instance of series B with series number 1. -/
def seriesB1Dataset : Dataset :=
  ⟨[⟨0x0020000E, "SeriesInstanceUID", "UI", .str "B"⟩,
    ⟨0x00200011, "SeriesNumber", "IS", .int 1⟩], []⟩

/-- C5 counterexample: the sort key maps a non-numeric series number to
the finite sentinel 9999, not to infinity, so the group with the
non-numeric number X (key 9999) sorts before the group with the numeric
number 10000 (key 10000) — a numeric series number for which the
claimed ordering fails. -/
theorem series_order_counterexample :
    (find_and_get_series_list [nonNumericSeriesDataset, bigNumberSeriesDataset]).map
      (fun g => pyStr g.SeriesNumber) = ["X", "10000"] ∧
    isDigitString "X" = false ∧
    isDigitString "10000" = true ∧
    seriesSortKey ⟨"A", .str "", .str "", .str "X", 1, [nonNumericSeriesDataset]⟩
      = 9999 := by
  refine ⟨by decide, rfl, rfl, by decide⟩

/-- C5 as amended: the series list is sorted ascending by the key that
maps a truthy all-digit series number to its numeric value and any other
series number to the literal 9999 — so non-numeric and absent series
numbers sort after numeric ones only as long as the numeric values stay
below the 9999 sentinel, and ties at 9999 keep arrival order.  The
specification example holds: instances of series A (number 2), B
(number 1), A again group into two series ordered B then A with
instance counts 1 and 2. -/
theorem series_list_sorted (received : List Dataset) :
    (find_and_get_series_list received).Pairwise
      (fun a b => seriesSortKey a ≤ seriesSortKey b) ∧
    (find_and_get_series_list [seriesA2Dataset, seriesB1Dataset, seriesA2Dataset]).map
      (fun g => (g.SeriesInstanceUID, g.InstanceCount)) = [("B", 1), ("A", 2)] :=
  ⟨pairwise_sortByKey seriesSortKey _, rfl⟩

/-- One drain step appends exactly the record pendingRecord selects. -/
theorem drain_find_step (acc : List (List (String × DicomValue)))
    (r : FindResponse) :
    (match r.status with
      | none => acc
      | some code =>
        if code = 0xFF00 then
          match r.identifier with
          | some elems =>
            if elems.isEmpty then acc else acc ++ [coerceIdentifier elems]
          | none => acc
        else acc) = acc ++ (pendingRecord r).toList := by
  rcases r with ⟨status, ident⟩
  cases status with
  | none => simp [pendingRecord]
  | some code =>
    by_cases hc : code = 0xFF00
    · subst hc
      cases ident with
      | none => simp [pendingRecord]
      | some elems =>
        by_cases he : elems.isEmpty <;> simp [pendingRecord, he]
    · simp [pendingRecord, hc]

/-- The whole drain with an explicit accumulator. -/
theorem drain_find_go (responses : List FindResponse) :
    ∀ acc,
      responses.foldl
        (fun results r =>
          match r.status with
          | none => results
          | some code =>
            if code = 0xFF00 then
              match r.identifier with
              | some elems =>
                if elems.isEmpty then results
                else results ++ [coerceIdentifier elems]
              | none => results
            else results)
        acc = acc ++ responses.filterMap pendingRecord := by
  induction responses with
  | nil =>
    intro acc
    simp
  | cons hd tl ih =>
    intro acc
    simp only [List.foldl_cons]
    rw [drain_find_step acc hd, ih, List.filterMap_cons]
    cases h : pendingRecord hd <;> simp [h]

/-- A one-element identifier used in the drain examples. -/
def patientElem (pid : String) : NetElement := ⟨"PatientID", "LO", .str pid⟩

/-- C7 counterexample: a response with status FF01 — the
pending-with-warning code, whose category is Pending — and a non-null,
non-empty identifier contributes nothing to the result list, because the
drain appends only on the exact code FF00; the claim requires every
pending-status entry with a non-null record to be appended. -/
theorem drain_pending_warning_counterexample :
    code_to_category 0xFF01 = "Pending" ∧
    drain_find_responses [⟨some 0xFF01, some [patientElem "P1"]⟩] = [] :=
  ⟨rfl, rfl⟩

/-- C7 as amended: the drain visits the whole stream in order and
appends exactly the entries whose status code is FF00 (not every
Pending-category code) and whose identifier is non-null and non-empty,
in stream order; failure, cancel and warning statuses are recorded in
the log only and neither stop the drain nor discard earlier results,
and find_studies reports success after every normal drain.  On the
claimed stream — pending record P1, pending record P2, failure A700,
success — the result list holds the two coerced records. -/
theorem drain_find_characterization :
    (∀ responses : List FindResponse,
      drain_find_responses responses = responses.filterMap pendingRecord ∧
      (find_studies_result responses).fst = true) ∧
    code_to_category 0xA700 = "Failure" ∧
    drain_find_responses
        [⟨some 0xFF00, some [patientElem "P1"]⟩,
          ⟨some 0xFF00, some [patientElem "P2"]⟩,
          ⟨some 0xA700, none⟩, ⟨some 0x0000, none⟩] =
      [coerceIdentifier [patientElem "P1"], coerceIdentifier [patientElem "P2"]] := by
  refine ⟨fun responses => ⟨?_, rfl⟩, rfl, rfl⟩
  unfold drain_find_responses
  exact drain_find_go responses []

end PacsSync
